import Mathlib

/-!
Verification of the user-credential store (src/database.py) and the HTTP
handlers (src/main.py) of the application.

The store is a single SQLite table `users(id, username UNIQUE, email UNIQUE,
password)`; rows are kept here as a list in insertion (rowid) order together
with the next AUTOINCREMENT id.  Passwords are hashed with bcrypt; bcrypt is
modelled abstractly: a hash records the salt drawn by the library and the
password it was derived from, and verification succeeds exactly on that
password.  Operations that hash take the fresh salt as an explicit argument.

The conversion endpoint shells out to an external converter and checks the
filesystem; the outcome of the external process and the existence of the
output file are explicit arguments of its embedding.
-/

/-- A bcrypt hash value: the salt the library drew and the password it was
derived from.  Bcrypt is modelled abstractly: a hash verifies against
exactly the password it was computed from. -/
structure BcryptHash where
  salt : Nat
  pw : String
deriving DecidableEq, Repr

/-- Model of `bcrypt.hash(password)`, with the fresh random salt made explicit. -/
def bcryptHash (salt : Nat) (password : String) : BcryptHash :=
  ⟨salt, password⟩

/-- Model of `bcrypt.verify(password, hash)`. -/
def bcryptVerify (password : String) (h : BcryptHash) : Bool :=
  h.pw == password

/-- One row of the `users` table: `id INTEGER PRIMARY KEY AUTOINCREMENT`,
`username TEXT UNIQUE`, `email TEXT UNIQUE`, `password TEXT`. -/
structure UserRow where
  id : Nat
  username : String
  email : String
  password : BcryptHash
deriving DecidableEq, Repr

/-- The database state: the rows of the `users` table in insertion (rowid)
order, and the next AUTOINCREMENT id. -/
structure DB where
  users : List UserRow
  nextId : Nat
deriving DecidableEq, Repr

/-- State after `init_db()` on a fresh database: the `users` table exists and is
empty, AUTOINCREMENT ids start at 1. -/
def init_db : DB :=
  ⟨[], 1⟩

/-- Model of `create_user(username, email, password)` (src/database.py:34).
The INSERT raises `sqlite3.IntegrityError` when the username or the email
collides with an existing row (both columns are UNIQUE); the handler returns
False and the table is unchanged.  Otherwise the row is inserted with a
fresh bcrypt hash of the password and True is returned. -/
def create_user (db : DB) (salt : Nat) (username email password : String) :
    Bool × DB :=
  if db.users.any (fun u => u.username == username || u.email == email) then
    (false, db)
  else
    (true, ⟨db.users ++ [⟨db.nextId, username, email, bcryptHash salt password⟩],
            db.nextId + 1⟩)

/-- Model of `verify_user(username, password)` (src/database.py:51).
`SELECT password FROM users WHERE username = ?` with `fetchone()` yields the
first row in rowid order whose username matches; the result is
`row and bcrypt.verify(password, row[0])`. -/
def verify_user (db : DB) (username password : String) : Bool :=
  match db.users.find? (fun u => u.username == username) with
  | some u => bcryptVerify password u.password
  | none => false

/-- The dictionary `{"id": ..., "username": ..., "email": ...}` returned by
`get_user_by_email` and `get_user_by_username`; it has no password field. -/
structure UserRec where
  id : Nat
  username : String
  email : String
deriving DecidableEq, Repr

/-- Model of `get_user_by_email(email)` (src/database.py:62): the first row in rowid
order whose email matches, projected to id/username/email, else None. -/
def get_user_by_email (db : DB) (email : String) : Option UserRec :=
  match db.users.find? (fun u => u.email == email) with
  | some u => some ⟨u.id, u.username, u.email⟩
  | none => none

/-- Model of `get_user_by_username(username)` (src/database.py:77): the first row in
rowid order whose username matches, projected to id/username/email, else
None. -/
def get_user_by_username (db : DB) (username : String) : Option UserRec :=
  match db.users.find? (fun u => u.username == username) with
  | some u => some ⟨u.id, u.username, u.email⟩
  | none => none

/-- Model of `update_user_password(email, new_password)` (src/database.py:92).
`UPDATE users SET password = ? WHERE email = ?` overwrites the password of
every row whose email matches with a fresh bcrypt hash; the function returns
`cursor.rowcount > 0`, i.e. whether some row matched. -/
def update_user_password (db : DB) (salt : Nat) (email new_password : String) :
    Bool × DB :=
  (db.users.any (fun u => u.email == email),
   ⟨db.users.map (fun u =>
      if u.email == email then { u with password := bcryptHash salt new_password }
      else u),
    db.nextId⟩)

/-- The distinct responses of the `POST /reset_password_direct` handler
(src/main.py:81). -/
inductive ResetResponse
  /-- forgot_password.html with "Passwords do not match." -/
  | mismatchTemplate
  /-- forgot_password.html with "No account found with that username or email." -/
  | notFoundTemplate
  /-- forgot_password.html with "Failed to reset password. Please try again." -/
  | failedTemplate
  /-- Redirect (303) to /login?message=password_reset_success -/
  | successRedirect
deriving DecidableEq, Repr

/-- A call the reset handler makes into the user store to resolve the
submitted identifier. -/
inductive StoreLookup
  | byEmail (s : String)
  | byUsername (s : String)
deriving DecidableEq, Repr

/-- Model of `reset_password_direct(username_or_email, new_password,
confirm_new_password)` (src/main.py:82).  Returns the response, the database
after the request, and the list of store lookups performed, in order.  The
confirmation check comes first; then the identifier is resolved by email and,
failing that, by username; on a hit the password is updated keyed by the
resolved user's email. -/
def reset_password_direct (db : DB) (salt : Nat)
    (username_or_email new_password confirm_new_password : String) :
    ResetResponse × DB × List StoreLookup :=
  if new_password ≠ confirm_new_password then
    (.mismatchTemplate, db, [])
  else
    match get_user_by_email db username_or_email with
    | some user =>
        let r := update_user_password db salt user.email new_password
        ((if r.1 then .successRedirect else .failedTemplate), r.2,
         [.byEmail username_or_email])
    | none =>
        match get_user_by_username db username_or_email with
        | some user =>
            let r := update_user_password db salt user.email new_password
            ((if r.1 then .successRedirect else .failedTemplate), r.2,
             [.byEmail username_or_email, .byUsername username_or_email])
        | none =>
            (.notFoundTemplate, db,
             [.byEmail username_or_email, .byUsername username_or_email])

/-- Outcome of the `subprocess.run(["libreoffice", ...], check=True)` call in
the convert endpoint (src/main.py:30). -/
inductive ProcOutcome
  /-- the process ran and exited with status 0 -/
  | ok
  /-- the process exited nonzero: `subprocess.CalledProcessError` -/
  | processError
  /-- the binary is not on PATH: `FileNotFoundError` -/
  | binaryMissing
deriving DecidableEq, Repr

/-- Body of a response of the convert or download endpoint. -/
inductive HttpBody
  | completed (file_id : String)
  | failed (message : String)
  /-- a FileResponse streaming the produced pdf -/
  | fileContent
  /-- the JSON body of the 404 answer of the download endpoint -/
  | downloadNotFound
deriving DecidableEq, Repr

/-- An HTTP response: status code and body. -/
structure HttpResponse where
  statusCode : Nat
  body : HttpBody
deriving DecidableEq, Repr

/-- Model of `POST /convert` (src/main.py:20), as a function of the generated uuid,
the outcome of the converter process and whether the expected output file
exists afterwards. -/
def convert_to_pdf (outcome : ProcOutcome) (outputExists : Bool)
    (file_id : String) : HttpResponse :=
  match outcome with
  | .processError => ⟨500, .failed "PDF conversion failed."⟩
  | .binaryMissing => ⟨500, .failed "Server error: PDF converter not found."⟩
  | .ok =>
      if outputExists then ⟨200, .completed file_id⟩
      else ⟨500, .failed "PDF output file not found after conversion."⟩

/-- Model of `GET /download/...` (src/main.py:45), as a function of whether the
pdf file for the identifier exists. -/
def download_pdf (pdfExists : Bool) : HttpResponse :=
  if pdfExists then ⟨200, .fileContent⟩ else ⟨404, .downloadNotFound⟩

/-- The uniqueness invariant of the `users` table: the UNIQUE constraints on
username and email. -/
def UsersUnique (db : DB) : Prop :=
  (db.users.map (fun u => u.username)).Nodup ∧
  (db.users.map (fun u => u.email)).Nodup

instance (db : DB) : Decidable (UsersUnique db) := by
  unfold UsersUnique; infer_instance

/-- The identity part (id, username, email) of each row, in order; used to
state that operations never delete a user. -/
def usersKey (db : DB) : List (Nat × String × String) :=
  db.users.map (fun u => (u.id, u.username, u.email))

/-- A concrete two-user store used to instantiate the theorems. -/
def db0 : DB :=
  ⟨[⟨1, "alice", "alice@x", bcryptHash 0 "pw1"⟩,
    ⟨2, "bob", "bob@x", bcryptHash 1 "pw2"⟩], 3⟩

/-- A concrete store in which the second user's username equals the first
user's email, to exercise the identifier-resolution order of the reset
handler. -/
def db1 : DB :=
  ⟨[⟨1, "alice", "alice@x", bcryptHash 0 "pw1"⟩,
    ⟨2, "alice@x", "bob@x", bcryptHash 1 "pw2"⟩], 3⟩

/-! ### Helper lemmas -/

/-- In a list whose images under a key function are pairwise distinct,
`find?` on the key of a member returns exactly that member. -/
theorem find_key_eq_of_mem {α : Type} (f : α → String)
    (l : List α) (u : α) (hnd : (l.map f).Nodup) (hm : u ∈ l) :
    l.find? (fun x => f x == f u) = some u := by
  induction l with
  | nil => cases hm
  | cons a t ih =>
    rw [List.map_cons, List.nodup_cons] at hnd
    rcases List.mem_cons.mp hm with h | h
    · subst h
      simp [List.find?]
    · have hne : f a ≠ f u := by
        intro he
        exact hnd.1 (he ▸ List.mem_map_of_mem f h)
      have hfa : ¬ (f a == f u) = true := by
        simpa using hne
      have hstep : List.find? (fun x => f x == f u) (a :: t) =
          List.find? (fun x => f x == f u) t :=
        List.find?_cons_of_neg t hfa
      rw [hstep]
      exact ih hnd.2 h

/-- `find?` on a key returns none exactly when no member has the key. -/
theorem find_key_eq_none {α : Type} (f : α → String) (k : String)
    (l : List α) (hnone : ∀ x ∈ l, f x ≠ k) :
    l.find? (fun x => f x == k) = none := by
  rw [List.find?_eq_none]
  intro x hx
  simpa using hnone x hx

/-! ### C1: verify_user -/

/-- C1: for every username and password, `verify_user` returns true iff a
user with that username exists in the store and the stored bcrypt hash
verifies against the supplied password; it returns false for any unknown
username and for any password other than the one stored.  (Stated under the
UNIQUE constraints of the table.) -/
theorem verify_user_iff_stored (db : DB) (un pw : String)
    (hinv : UsersUnique db) :
    verify_user db un pw = true ↔
      ∃ u ∈ db.users, u.username = un ∧ bcryptVerify pw u.password = true := by
  unfold verify_user
  constructor
  · intro hv
    cases hfind : db.users.find? (fun u => u.username == un) with
    | none => rw [hfind] at hv; cases hv
    | some u =>
      rw [hfind] at hv
      have hmem := List.mem_of_find?_eq_some hfind
      have hun : u.username = un := by
        have := List.find?_some hfind
        simpa using this
      exact ⟨u, hmem, hun, hv⟩
  · rintro ⟨u, hmem, hun, hver⟩
    have hfind : db.users.find? (fun x => x.username == u.username) = some u :=
      find_key_eq_of_mem (fun x => x.username) db.users u hinv.1 hmem
    rw [hun] at hfind
    rw [hfind]
    exact hver

/-- Witness for C1: a concrete evaluation of the equivalence. -/
theorem verify_user_iff_stored_witness :
    verify_user db0 "alice" "pw1" = true ↔
      ∃ u ∈ db0.users, u.username = "alice" ∧
        bcryptVerify "pw1" u.password = true :=
  verify_user_iff_stored db0 "alice" "pw1" (by decide)

/-! ### C8: lookup by email / username -/

/-- C8: `get_user_by_email` (resp. `get_user_by_username`) returns none when
no user with that email (username) exists, and otherwise exactly the record
`{id, username, email}` of the unique matching user, the password excluded
(the returned record type has no password field). -/
theorem get_user_lookup_spec (db : DB) (em un : String)
    (hinv : UsersUnique db) :
    ((∀ u ∈ db.users, u.email ≠ em) → get_user_by_email db em = none)
  ∧ (∀ u ∈ db.users, u.email = em →
      get_user_by_email db em = some ⟨u.id, u.username, u.email⟩)
  ∧ ((∀ u ∈ db.users, u.username ≠ un) → get_user_by_username db un = none)
  ∧ (∀ u ∈ db.users, u.username = un →
      get_user_by_username db un = some ⟨u.id, u.username, u.email⟩) := by
  refine ⟨?_, ?_, ?_, ?_⟩
  · intro hno
    unfold get_user_by_email
    rw [find_key_eq_none (fun u => u.email) em db.users hno]
  · intro u hm he
    unfold get_user_by_email
    have hfind : db.users.find? (fun x => x.email == u.email) = some u :=
      find_key_eq_of_mem (fun x => x.email) db.users u hinv.2 hm
    rw [he] at hfind
    rw [hfind]
  · intro hno
    unfold get_user_by_username
    rw [find_key_eq_none (fun u => u.username) un db.users hno]
  · intro u hm he
    unfold get_user_by_username
    have hfind : db.users.find? (fun x => x.username == u.username) = some u :=
      find_key_eq_of_mem (fun x => x.username) db.users u hinv.1 hm
    rw [he] at hfind
    rw [hfind]

/-- Witness for C8: concrete hit and miss for both lookups. -/
theorem get_user_lookup_spec_witness :
    get_user_by_email db0 "alice@x" = some ⟨1, "alice", "alice@x"⟩ ∧
    get_user_by_username db0 "nobody" = none :=
  ⟨(get_user_lookup_spec db0 "alice@x" "nobody" (by decide)).2.1
      ⟨1, "alice", "alice@x", bcryptHash 0 "pw1"⟩ (by decide) rfl,
   (get_user_lookup_spec db0 "alice@x" "nobody" (by decide)).2.2.1 (by decide)⟩

/-! ### C6: update_user_password rowcount contract -/

/-- C6: `update_user_password(email, new_password)` returns true iff a user
row with that exact email exists (a row was affected); when no such user
exists it returns false and the store is unchanged. -/
theorem update_user_password_rowcount (db : DB) (s : Nat) (em npw : String) :
    ((update_user_password db s em npw).1 = true ↔ ∃ u ∈ db.users, u.email = em)
  ∧ ((update_user_password db s em npw).1 = false →
      (update_user_password db s em npw).2 = db) := by
  constructor
  · unfold update_user_password
    simp [List.any_eq_true]
  · intro hfalse
    have hfalse' : db.users.any (fun u => u.email == em) = false := hfalse
    have hno : ∀ u ∈ db.users, ¬ (u.email == em) = true := by
      simpa [List.any_eq_false] using hfalse'
    have hid : ∀ a ∈ db.users,
        (if a.email == em then { a with password := bcryptHash s npw }
         else a) = id a := by
      intro a ha
      simp [hno a ha]
    have hmap := List.map_congr_left hid
    rw [List.map_id] at hmap
    show DB.mk (db.users.map fun u =>
        if u.email == em then { u with password := bcryptHash s npw } else u)
      db.nextId = db
    rw [hmap]

/-- Witness for C6: updating a missing email reports false and leaves the
store unchanged. -/
theorem update_user_password_rowcount_witness :
    (update_user_password db0 5 "none@x" "q").2 = db0 :=
  (update_user_password_rowcount db0 5 "none@x" "q").2 (by decide)

/-! ### C2: create_user -/

/-- Helper: create_user fails and leaves the table unchanged on a username
or email collision (the UNIQUE constraint raises IntegrityError). -/
theorem create_user_conflict (db : DB) (s : Nat) (un em pw : String)
    (h : ∃ u ∈ db.users, u.username = un ∨ u.email = em) :
    create_user db s un em pw = (false, db) := by
  unfold create_user
  have hc : (db.users.any fun u => u.username == un || u.email == em) = true := by
    rw [List.any_eq_true]
    obtain ⟨u, hm, hu⟩ := h
    exact ⟨u, hm, by simpa using hu⟩
  rw [if_pos hc]

/-- Helper: create_user succeeds and appends the new row when neither the
username nor the email is taken. -/
theorem create_user_fresh (db : DB) (s : Nat) (un em pw : String)
    (h : ¬ ∃ u ∈ db.users, u.username = un ∨ u.email = em) :
    create_user db s un em pw =
      (true, ⟨db.users ++ [⟨db.nextId, un, em, bcryptHash s pw⟩],
              db.nextId + 1⟩) := by
  unfold create_user
  have hc : ¬ (db.users.any fun u => u.username == un || u.email == em) = true := by
    rw [List.any_eq_true]
    intro ⟨u, hm, hu⟩
    exact h ⟨u, hm, by simpa using hu⟩
  rw [if_neg hc]

/-- C2: create_user returns false and leaves the user table unchanged when a
user with the same username or email exists; otherwise it persists a new row
with a salted bcrypt hash of the password and returns true.  Consequently a
second creation with the same username (or the same email) as a first
successful one fails. -/
theorem create_user_spec (db : DB) (s : Nat) (un em pw : String) :
    ((∃ u ∈ db.users, u.username = un ∨ u.email = em) →
      create_user db s un em pw = (false, db))
  ∧ ((¬ ∃ u ∈ db.users, u.username = un ∨ u.email = em) →
      create_user db s un em pw =
        (true, ⟨db.users ++ [⟨db.nextId, un, em, bcryptHash s pw⟩],
                db.nextId + 1⟩))
  ∧ (∀ t em2 pw2, (¬ ∃ u ∈ db.users, u.username = un ∨ u.email = em) →
      (create_user (create_user db s un em pw).2 t un em2 pw2).1 = false)
  ∧ (∀ t un2 pw2, (¬ ∃ u ∈ db.users, u.username = un ∨ u.email = em) →
      (create_user (create_user db s un em pw).2 t un2 em pw2).1 = false) := by
  refine ⟨create_user_conflict db s un em pw, create_user_fresh db s un em pw,
    ?_, ?_⟩
  · intro t em2 pw2 h
    rw [create_user_fresh db s un em pw h]
    rw [create_user_conflict _ t un em2 pw2
      ⟨⟨db.nextId, un, em, bcryptHash s pw⟩, by simp, Or.inl rfl⟩]
  · intro t un2 pw2 h
    rw [create_user_fresh db s un em pw h]
    rw [create_user_conflict _ t un2 em pw2
      ⟨⟨db.nextId, un, em, bcryptHash s pw⟩, by simp, Or.inr rfl⟩]

/-- Witness for C2: on an empty store the first creation succeeds and a
second one with the same username fails. -/
theorem create_user_spec_witness :
    (create_user (create_user init_db 0 "alice" "alice@x" "pw1").2
      1 "alice" "other@x" "pw2").1 = false :=
  (create_user_spec init_db 0 "alice" "alice@x" "pw1").2.2.1 1 "other@x" "pw2"
    (by decide)

/-! ### C4: uniqueness invariant and no deletion -/

/-- Helper: the username and email columns are untouched by
update_user_password. -/
theorem update_user_password_key_eq (db : DB) (s : Nat) (em npw : String) :
    usersKey (update_user_password db s em npw).2 = usersKey db := by
  unfold usersKey update_user_password
  simp only [List.map_map]
  apply List.map_congr_left
  intro a ha
  by_cases h : (a.email == em) = true <;> simp [Function.comp, h]

/-- Helper: the mapped username column of the store after
update_user_password equals the one before. -/
theorem update_user_password_usernames_eq (db : DB) (s : Nat) (em npw : String) :
    (update_user_password db s em npw).2.users.map (fun u => u.username) =
      db.users.map (fun u => u.username) := by
  show (db.users.map fun u =>
      if u.email == em then { u with password := bcryptHash s npw }
      else u).map (fun u => u.username) = _
  rw [List.map_map]
  apply List.map_congr_left
  intro a ha
  by_cases h : (a.email == em) = true <;> simp [Function.comp, h]

/-- Helper: the mapped email column of the store after update_user_password
equals the one before. -/
theorem update_user_password_emails_eq (db : DB) (s : Nat) (em npw : String) :
    (update_user_password db s em npw).2.users.map (fun u => u.email) =
      db.users.map (fun u => u.email) := by
  show (db.users.map fun u =>
      if u.email == em then { u with password := bcryptHash s npw }
      else u).map (fun u => u.email) = _
  rw [List.map_map]
  apply List.map_congr_left
  intro a ha
  by_cases h : (a.email == em) = true <;> simp [Function.comp, h]

/-- C4: the predicate "no two distinct users share a username and no two
distinct users share an email" holds in the initial empty state and is
preserved by create_user and update_user_password (the lookups verify_user,
get_user_by_email and get_user_by_username return no state at all); and
neither mutating operation deletes a user: the (id, username, email)
identities of the old rows remain, in order, a prefix of the new ones. -/
theorem store_uniqueness_invariant :
    UsersUnique init_db
  ∧ (∀ db s un em pw, UsersUnique db →
      UsersUnique (create_user db s un em pw).2 ∧
      ∃ t, usersKey (create_user db s un em pw).2 = usersKey db ++ t)
  ∧ (∀ db s em npw, UsersUnique db →
      UsersUnique (update_user_password db s em npw).2 ∧
      usersKey (update_user_password db s em npw).2 = usersKey db) := by
  refine ⟨⟨List.nodup_nil, List.nodup_nil⟩, ?_, ?_⟩
  · intro db s un em pw hinv
    by_cases hex : ∃ u ∈ db.users, u.username = un ∨ u.email = em
    · rw [create_user_conflict db s un em pw hex]
      exact ⟨hinv, [], by simp⟩
    · rw [create_user_fresh db s un em pw hex]
      push_neg at hex
      constructor
      · constructor
        · show ((db.users ++ [UserRow.mk db.nextId un em (bcryptHash s pw)]).map
            (fun u : UserRow => u.username)).Nodup
          rw [List.map_append, List.nodup_append]
          refine ⟨hinv.1, by simp, ?_⟩
          rw [List.map_singleton, List.disjoint_singleton]
          simp only [List.mem_map, not_exists]
          rintro x ⟨hx, hxu⟩
          exact (hex x hx).1 hxu
        · show ((db.users ++ [UserRow.mk db.nextId un em (bcryptHash s pw)]).map
            (fun u : UserRow => u.email)).Nodup
          rw [List.map_append, List.nodup_append]
          refine ⟨hinv.2, by simp, ?_⟩
          rw [List.map_singleton, List.disjoint_singleton]
          simp only [List.mem_map, not_exists]
          rintro x ⟨hx, hxe⟩
          exact (hex x hx).2 hxe
      · refine ⟨[(db.nextId, un, em)], ?_⟩
        show (db.users ++ [UserRow.mk db.nextId un em (bcryptHash s pw)]).map
          (fun u : UserRow => (u.id, u.username, u.email)) = _
        rw [List.map_append]
        rfl
  · intro db s em npw hinv
    refine ⟨⟨?_, ?_⟩, update_user_password_key_eq db s em npw⟩
    · rw [update_user_password_usernames_eq db s em npw]
      exact hinv.1
    · rw [update_user_password_emails_eq db s em npw]
      exact hinv.2

/-- Witness for C4: concrete preservation of the invariant by a successful
creation and a password update on the example store. -/
theorem store_uniqueness_invariant_witness :
    UsersUnique (create_user db0 7 "carol" "carol@x" "pw3").2 ∧
    ∃ t, usersKey (create_user db0 7 "carol" "carol@x" "pw3").2 =
      usersKey db0 ++ t :=
  store_uniqueness_invariant.2.1 db0 7 "carol" "carol@x" "pw3" (by decide)

/-! ### C3: password update changes subsequent verification -/

/-- Helper: verification against the store after update_user_password is
verification against the row found by username, whose hash was replaced
exactly when its email matched the update key. -/
theorem verify_user_after_update (db : DB) (s : Nat) (em npw un pw : String) :
    verify_user (update_user_password db s em npw).2 un pw =
      (match db.users.find? (fun x => x.username == un) with
       | some x =>
           if x.email == em then bcryptVerify pw (bcryptHash s npw)
           else bcryptVerify pw x.password
       | none => false) := by
  unfold verify_user update_user_password
  simp only
  rw [List.find?_map]
  have hpred : ((fun u : UserRow => u.username == un) ∘
      (fun u : UserRow =>
        if u.email == em then { u with password := bcryptHash s npw }
        else u)) = (fun u : UserRow => u.username == un) := by
    funext x
    by_cases h : (x.email == em) = true <;> simp [Function.comp, h]
  rw [hpred]
  cases hf : db.users.find? (fun u => u.username == un) with
  | none => rfl
  | some x =>
    show bcryptVerify pw
        ((if x.email == em then { x with password := bcryptHash s npw }
          else x) : UserRow).password =
      (if x.email == em then bcryptVerify pw (bcryptHash s npw)
       else bcryptVerify pw x.password)
    by_cases h : (x.email == em) = true
    · rw [if_pos h, if_pos h]
    · rw [if_neg h, if_neg h]

/-- C3: for a stored user u and distinct passwords old and new, if u
verified with old, then after a successful password update keyed by u's
email, verification with new succeeds and verification with old fails. -/
theorem update_password_switches_verification (db : DB) (s : Nat) (u : UserRow)
    (old npw : String) (hinv : UsersUnique db) (hm : u ∈ db.users)
    (hne : old ≠ npw) (hold : verify_user db u.username old = true) :
    (update_user_password db s u.email npw).1 = true ∧
    verify_user (update_user_password db s u.email npw).2 u.username npw = true ∧
    verify_user (update_user_password db s u.email npw).2 u.username old
      = false := by
  have hfind : db.users.find? (fun x => x.username == u.username) = some u :=
    find_key_eq_of_mem (fun x => x.username) db.users u hinv.1 hm
  have hany : (update_user_password db s u.email npw).1 = true := by
    show (db.users.any fun x => x.email == u.email) = true
    rw [List.any_eq_true]
    exact ⟨u, hm, by simp⟩
  refine ⟨hany, ?_, ?_⟩
  · rw [verify_user_after_update db s u.email npw u.username npw]
    rw [hfind]
    simp [bcryptVerify, bcryptHash]
  · rw [verify_user_after_update db s u.email npw u.username old]
    rw [hfind]
    have hself : (u.email == u.email) = true := by simp
    show (if u.email == u.email then bcryptVerify old (bcryptHash s npw)
          else bcryptVerify old u.password) = false
    rw [if_pos hself]
    show (npw == old) = false
    have hne' : ¬ (npw = old) := fun hh => hne hh.symm
    simpa using hne'

/-- Witness for C3: a concrete update on the example store switches which
password verifies. -/
theorem update_password_switches_verification_witness :
    (update_user_password db0 9 "alice@x" "new1").1 = true ∧
    verify_user (update_user_password db0 9 "alice@x" "new1").2
      "alice" "new1" = true ∧
    verify_user (update_user_password db0 9 "alice@x" "new1").2
      "alice" "pw1" = false :=
  update_password_switches_verification db0 9
    ⟨1, "alice", "alice@x", bcryptHash 0 "pw1"⟩ "pw1" "new1"
    (by decide) (by decide) (by decide) (by decide)

/-! ### C5: mismatched confirmation short-circuits the reset handler -/

/-- C5: when new_password differs from confirm_new_password the handler
returns the mismatch error with no store lookup performed and the store
unchanged, whatever the identifier. -/
theorem reset_mismatch_short_circuits (db : DB) (s : Nat)
    (ident npw cpw : String) (h : npw ≠ cpw) :
    reset_password_direct db s ident npw cpw = (.mismatchTemplate, db, []) := by
  unfold reset_password_direct
  rw [if_pos h]

/-- Witness for C5: a concrete mismatched pair, with an identifier that does
match an account. -/
theorem reset_mismatch_short_circuits_witness :
    reset_password_direct db0 3 "alice@x" "p1" "p2" =
      (.mismatchTemplate, db0, []) :=
  reset_mismatch_short_circuits db0 3 "alice@x" "p1" "p2" (by decide)

/-! ### C7: unknown identifier yields the account-not-found error -/

/-- C7: with matching confirmation and an identifier matching no email and
no username, the handler answers account-not-found and the store is
unchanged. -/
theorem reset_unknown_identifier (db : DB) (s : Nat) (ident npw : String)
    (hne : ∀ u ∈ db.users, u.email ≠ ident)
    (hnu : ∀ u ∈ db.users, u.username ≠ ident) :
    reset_password_direct db s ident npw npw =
      (.notFoundTemplate, db, [.byEmail ident, .byUsername ident]) := by
  have he : get_user_by_email db ident = none := by
    unfold get_user_by_email
    rw [find_key_eq_none (fun u => u.email) ident db.users hne]
  have hu : get_user_by_username db ident = none := by
    unfold get_user_by_username
    rw [find_key_eq_none (fun u => u.username) ident db.users hnu]
  unfold reset_password_direct
  rw [if_neg (by simp : ¬ npw ≠ npw), he, hu]

/-- Witness for C7: a concrete unknown identifier on the example store. -/
theorem reset_unknown_identifier_witness :
    reset_password_direct db0 3 "nobody" "p1" "p1" =
      (.notFoundTemplate, db0, [.byEmail "nobody", .byUsername "nobody"]) :=
  reset_unknown_identifier db0 3 "nobody" "p1" (by decide) (by decide)

/-! ### C10: email resolution takes precedence over username -/

/-- C10: when user a's email and user b's username both equal the submitted
identifier, the reset succeeds, a's row is the one rehashed, and b's row
survives untouched. -/
theorem reset_resolves_email_before_username (db : DB) (s : Nat)
    (a b : UserRow) (ident npw : String) (hinv : UsersUnique db)
    (ha : a ∈ db.users) (hb : b ∈ db.users) (hab : a ≠ b)
    (hae : a.email = ident) (hbu : b.username = ident) :
    (reset_password_direct db s ident npw npw).1 = .successRedirect ∧
    { a with password := bcryptHash s npw } ∈
      (reset_password_direct db s ident npw npw).2.1.users ∧
    b ∈ (reset_password_direct db s ident npw npw).2.1.users := by
  subst hae
  have hfind : db.users.find? (fun x => x.email == a.email) = some a :=
    find_key_eq_of_mem (fun x => x.email) db.users a hinv.2 ha
  have hge : get_user_by_email db a.email = some ⟨a.id, a.username, a.email⟩ := by
    unfold get_user_by_email
    rw [hfind]
  have hr1 : (update_user_password db s a.email npw).1 = true := by
    show (db.users.any fun x => x.email == a.email) = true
    rw [List.any_eq_true]
    exact ⟨a, ha, by simp⟩
  have hreset : reset_password_direct db s a.email npw npw =
      ((if (update_user_password db s a.email npw).1 then .successRedirect
        else .failedTemplate),
       (update_user_password db s a.email npw).2, [.byEmail a.email]) := by
    unfold reset_password_direct
    rw [if_neg (by simp : ¬ npw ≠ npw), hge]
  refine ⟨?_, ?_, ?_⟩
  · rw [hreset]
    simp [hr1]
  · rw [hreset]
    have h1 := List.mem_map_of_mem (fun x : UserRow =>
      if x.email == a.email then { x with password := bcryptHash s npw }
      else x) ha
    have hga : (fun x : UserRow =>
        if x.email == a.email then { x with password := bcryptHash s npw }
        else x) a = { a with password := bcryptHash s npw } := by simp
    rw [hga] at h1
    exact h1
  · rw [hreset]
    have hbea : b.email ≠ a.email := by
      intro he
      exact hab (List.inj_on_of_nodup_map hinv.2 ha hb he.symm)
    have h1 := List.mem_map_of_mem (fun x : UserRow =>
      if x.email == a.email then { x with password := bcryptHash s npw }
      else x) hb
    have hgb : (fun x : UserRow =>
        if x.email == a.email then { x with password := bcryptHash s npw }
        else x) b = b := by simp [hbea]
    rw [hgb] at h1
    exact h1

/-- Witness for C10: in db1 the identifier "alice@x" is alice's email and the
second user's username; the reset rehashes alice and keeps the second user. -/
theorem reset_resolves_email_before_username_witness :
    (reset_password_direct db1 4 "alice@x" "p9" "p9").1 = .successRedirect ∧
    (⟨1, "alice", "alice@x", bcryptHash 4 "p9"⟩ : UserRow) ∈
      (reset_password_direct db1 4 "alice@x" "p9" "p9").2.1.users ∧
    (⟨2, "alice@x", "bob@x", bcryptHash 1 "pw2"⟩ : UserRow) ∈
      (reset_password_direct db1 4 "alice@x" "p9" "p9").2.1.users :=
  reset_resolves_email_before_username db1 4
    ⟨1, "alice", "alice@x", bcryptHash 0 "pw1"⟩
    ⟨2, "alice@x", "bob@x", bcryptHash 1 "pw2"⟩
    "alice@x" "p9" (by decide) (by decide) (by decide) (by decide) rfl rfl

/-! ### C9: conversion and download status mapping -/

/-- C9: the convert endpoint answers completed (HTTP 200) with the request's
identifier exactly in the case where the converter process exits normally
and the output file exists; each of the three failure cases answers failed
with its message and HTTP 500; and downloading an identifier whose output
file does not exist answers HTTP 404. -/
theorem convert_download_status :
    (∀ fid, convert_to_pdf .ok true fid = ⟨200, .completed fid⟩)
  ∧ (∀ fid, convert_to_pdf .ok false fid =
      ⟨500, .failed "PDF output file not found after conversion."⟩)
  ∧ (∀ o fid, convert_to_pdf .processError o fid =
      ⟨500, .failed "PDF conversion failed."⟩)
  ∧ (∀ o fid, convert_to_pdf .binaryMissing o fid =
      ⟨500, .failed "Server error: PDF converter not found."⟩)
  ∧ download_pdf false = ⟨404, .downloadNotFound⟩
  ∧ download_pdf true = ⟨200, .fileContent⟩ :=
  ⟨fun _ => rfl, fun _ => rfl, fun _ _ => rfl, fun _ _ => rfl, rfl, rfl⟩
